import Mathlib

set_option maxHeartbeats 1000000

/-!
Shallow embedding of `voice_cloner_pro.py` (src/3.py).

The embedding models the asynchronous-orchestration core of the program:
the settings dictionary and its load/save functions, the status queue and
its polling drain, the record / upload / generate handlers and the worker
bodies.  External effects (filesystem, audio device, the two synthesis
engines) are represented by boolean oracles in `Env`; the text of dynamic
exception payloads is abstracted to fixed strings, keeping the message
prefixes that the program writes literally.
-/

/-- A JSON-ish settings value: the program only ever stores strings and
integers in `DEFAULT_SETTINGS`. -/
inductive SVal where
  | str (s : String)
  | int (n : Int)
  deriving DecidableEq

/-- A Python `dict` with string keys, modelled as an insertion-ordered
association list (Python dicts preserve insertion order). -/
abbrev Dict := List (String × SVal)

/-- Key membership in a dict. -/
def hasKey : Dict → String → Bool
  | [], _ => false
  | p :: rest, k => p.1 = k || hasKey rest k

/-- Python `d[k]` as a total lookup (first occurrence). -/
def dictGet : Dict → String → Option SVal
  | [], _ => none
  | p :: rest, k => if p.1 = k then some p.2 else dictGet rest k

/-- Python `d[k] = v`: replace in place if the key exists, else append
(matching dict insertion-order semantics). -/
def dictSet (d : Dict) (k : String) (v : SVal) : Dict :=
  if hasKey d k then d.map (fun p => if p.1 = k then (k, v) else p) else d ++ [(k, v)]

/-- Python `d.update(s)`: set every pair of `s` into `d`, in order, so a
later duplicate key in `s` wins. -/
def dictUpdate (d : Dict) (s : Dict) : Dict :=
  s.foldl (fun acc kv => dictSet acc kv.1 kv.2) d

/-- The value the last occurrence of `k` in `s` carries (the one
`dict.update` ends up storing). -/
def lookupLast : Dict → String → Option SVal
  | [], _ => none
  | p :: rest, k =>
    match lookupLast rest k with
    | some v => some v
    | none => if p.1 = k then some p.2 else none

/-- `DEFAULT_SETTINGS` from src/3.py lines 56-61. -/
def DEFAULT_SETTINGS : Dict :=
  [ ("last_voice_sample", SVal.str ""),
    ("record_seconds", SVal.int 10),
    ("sample_rate", SVal.int 44100),
    ("tts_model_name", SVal.str "tts_models/en/vctk/vits") ]

/-- State of the backing settings file as `load_settings` can encounter it:
absent, unreadable/unparsable (open or `json.load` raises, or the parsed
value is not a dict so `update` raises), or parsed into a dict. -/
inductive FileState where
  | missing
  | corrupt
  | parsed (s : Dict)

/-- `load_settings` (src/3.py lines 63-70): if the file exists, try to parse
it and merge it over the defaults with `DEFAULT_SETTINGS.update(s)`; any
exception is swallowed (`except Exception: pass`), so the function is total
and on failure leaves the defaults untouched. -/
def load_settings (defaults : Dict) (fs : FileState) : Dict :=
  match fs with
  | FileState.missing => defaults
  | FileState.corrupt => defaults
  | FileState.parsed s => dictUpdate defaults s

/-- `save_settings` (src/3.py lines 72-77): `json.dump(DEFAULT_SETTINGS, f)`
writes the whole in-memory dict; the written document therefore carries
exactly the dict's key/value pairs, which we model as the dict itself. -/
def save_settings (d : Dict) : Dict := d

/-- `post_status` (src/3.py lines 99-100): `status_q.put(msg)` on an
unbounded `queue.Queue` — a total append at the tail. -/
def post_status (q : List String) (m : String) : List String := q ++ [m]

/-- The `while not status_q.empty(): get_nowait()` loop body of
`_process_status_queue` (src/3.py lines 371-379): repeatedly pop the head,
accumulating consumed messages in arrival order, until the queue is empty. -/
def drainLoop : List String → List String → List String × List String
  | [], acc => (acc, [])
  | m :: rest, acc => drainLoop rest (acc ++ [m])

/-- One polling pass of `_process_status_queue`: consume every currently
available message, in FIFO order. Returns (consumed, remaining queue). -/
def drain_and_consume (q : List String) : List String × List String :=
  drainLoop q []

/-- Character-list prefix test (pattern, then subject). -/
def strStartsAux : List Char → List Char → Bool
  | [], _ => true
  | _ :: _, [] => false
  | p :: ps, c :: cs => p = c && strStartsAux ps cs

/-- `s.startswith(pat)`. -/
def strStarts (s pat : String) : Bool := strStartsAux pat.data s.data

/-- `s.endswith(pat)`. -/
def strEnds (s pat : String) : Bool := strStartsAux pat.data.reverse s.data.reverse

/-- Python `str.lower()` restricted to ASCII case folding. -/
def strLower (s : String) : String := String.mk (s.data.map Char.toLower)

/-- Whitespace as stripped by Python `str.strip()`. -/
def isWsp (c : Char) : Bool := c = ' ' || c = '\t' || c = '\n' || c = '\r'

/-- Python `str.strip()`. -/
def strStrip (s : String) : String :=
  String.mk (((s.data.dropWhile isWsp).reverse.dropWhile isWsp).reverse)

/-- The environment the program runs in: which engines imported, what the
filesystem answers, and whether each external effect succeeds or raises. -/
structure Env where
  /-- `HAS_TTS`: the Coqui `TTS` import succeeded (src/3.py lines 43-51). -/
  has_tts : Bool
  /-- `pyttsx3 is not None` (src/3.py lines 37-40). -/
  has_pyttsx3 : Bool
  /-- `os.path.exists`. -/
  fileExists : String → Bool
  /-- Whether `TTS(model_name=...)` construction succeeds for that name. -/
  coqui_load_ok : String → Bool
  /-- Whether `tts_to_file` succeeds. -/
  coqui_tts_ok : Bool
  /-- Whether the pyttsx3 `save_to_file`/`runAndWait` path succeeds. -/
  sys_tts_ok : Bool
  /-- Whether `sd.rec`/`sd.wait`/`write` succeed (microphone available). -/
  device_ok : Bool

/-- The mutable state of `VoiceClonerApp` relevant to the core, plus the
global `DEFAULT_SETTINGS` dict (`settings`) it mutates. `coqui_instance`
records the model name the cached `TTS(...)` handle was constructed with
(`None` = `self._coqui_instance is None`). -/
structure AppState where
  voice_sample : Option String
  record_seconds : Nat
  sample_rate : Nat
  tts_model_name : String
  output_file : String
  coqui_instance : Option String
  settings : Dict
  generate_btn_disabled : Bool
  deriving DecidableEq

/-- `self.__init__` state with a defaults-only settings file, paths taken
relative to the working directory. -/
def baseState : AppState :=
  { voice_sample := none
    record_seconds := 10
    sample_rate := 44100
    tts_model_name := "tts_models/en/vctk/vits"
    output_file := "vc_output.wav"
    coqui_instance := none
    settings := DEFAULT_SETTINGS
    generate_btn_disabled := false }

/-- Fixed recording output name, `Path.cwd() / "myvoice_sample.wav"`
(src/3.py line 240), modelled relative to the working directory. -/
def myvoice_path : String := "myvoice_sample.wav"

/-- The WAV file `write(outpath, samplerate, rec)` produces: `rec` has
`int(duration * samplerate)` frames, one channel (src/3.py line 238). -/
structure WavFile where
  path : String
  channels : Nat
  sampleRate : Nat
  frames : Nat
  deriving DecidableEq

/-- Result an admission attempt could have. `_on_record` / `_on_generate`
never actually produce `rejectedBusy`; the type records what a Runner-level
guard would return. -/
inductive SubmitResult where
  | accepted
  | rejectedBusy
  deriving DecidableEq

/-- `_on_record` (src/3.py lines 226-229): unconditionally starts a worker
thread. It consults neither the app state nor whether another mutating
worker is running (`runningMutating` is the thread context it never reads),
so every submission is accepted. -/
def on_record (s : AppState) (runningMutating : Bool) : SubmitResult :=
  SubmitResult.accepted

/-- Result of the record worker: updated state, the WAV written (if any),
the messages posted to the status queue, and whether it completed. -/
structure RecOut where
  state : AppState
  wav : Option WavFile
  posted : List String
  ok : Bool
  deriving DecidableEq

/-- `_record_worker` (src/3.py lines 231-251): posts "Recording...", records
`int(duration * samplerate)` mono frames at `samplerate`, writes them to the
fixed path, updates `self.voice_sample` and the settings, and posts the
saved-sample message; any exception lands in the `except` that posts the
failure message and leaves the sample state untouched. -/
def record_worker (env : Env) (s : AppState) : RecOut :=
  if env.device_ok then
    let wav : WavFile :=
      { path := myvoice_path
        channels := 1
        sampleRate := s.sample_rate
        frames := s.record_seconds * s.sample_rate }
    { state :=
        { s with
          voice_sample := some myvoice_path
          settings := dictSet s.settings "last_voice_sample" (SVal.str myvoice_path) }
      wav := some wav
      posted := ["Recording...", "Saved voice sample: " ++ myvoice_path]
      ok := true }
  else
    { state := s
      wav := none
      posted := ["Recording...", "Recording failed: device error"]
      ok := false }

/-- Outcome of `_on_upload` visible to the user. -/
inductive UploadRes where
  | noSelection
  | invalidFile
  | accepted
  deriving DecidableEq

/-- `_on_upload` (src/3.py lines 253-263): if a path was chosen, reject it
with the invalid-file error unless `file_path.lower().endswith(".wav")`;
otherwise store it as the voice sample and persist. Existence on disk is
never checked (the dialog is trusted): `env` is in scope but unconsulted. -/
def on_upload (env : Env) (s : AppState) (file_path : String) : UploadRes × AppState :=
  if file_path = "" then (UploadRes.noSelection, s)
  else if strEnds (strLower file_path) ".wav" = false then (UploadRes.invalidFile, s)
  else
    (UploadRes.accepted,
     { s with
       voice_sample := some file_path
       settings := dictSet s.settings "last_voice_sample" (SVal.str file_path) })

/-- Raw inputs `_on_generate` reads from the view: the text box, the model
entry, and the answer the user would give the confirmation dialog. -/
structure GenInput where
  text_box : String
  model_entry : String
  confirm : Bool
  deriving DecidableEq

/-- Outcome of `_on_generate`. -/
inductive GenRes where
  | errNoText
  | errNoEngine
  | cancelled
  | started (text : String)
  deriving DecidableEq

/-- `self.model_entry.get().strip() or self.tts_model_name`
(src/3.py line 285): a blank entry keeps the previous model name. -/
def newModelName (entry prev : String) : String :=
  if strStrip entry = "" then prev else strStrip entry

/-- `self.voice_sample and os.path.exists(self.voice_sample)`
(src/3.py line 271). -/
def sampleUsable (env : Env) (s : AppState) : Bool :=
  match s.voice_sample with
  | none => false
  | some p => env.fileExists p

/-- The tail of `_on_generate` once validation passed (src/3.py lines
284-291): store the (possibly retained) model name in session state and
settings, save, disable the Generate button and start the worker. -/
def generateStart (s : AppState) (inp : GenInput) : GenRes × AppState :=
  let model := newModelName inp.model_entry s.tts_model_name
  (GenRes.started (strStrip inp.text_box),
   { s with
     tts_model_name := model
     settings := dictSet s.settings "tts_model_name" (SVal.str model)
     generate_btn_disabled := true })

/-- `_on_generate` (src/3.py lines 265-291): reject empty text; if no usable
voice sample, either fail when no engine at all exists, or ask the user to
confirm proceeding; then persist the model name and start the worker. No
busy check appears anywhere on the path (`runningMutating` is never read). -/
def on_generate (runningMutating : Bool) (env : Env) (s : AppState) (inp : GenInput) :
    GenRes × AppState :=
  let text := strStrip inp.text_box
  if text = "" then (GenRes.errNoText, s)
  else if sampleUsable env s = false then
    if env.has_tts = false then
      if env.has_pyttsx3 = false then (GenRes.errNoEngine, s)
      else if inp.confirm = false then (GenRes.cancelled, s)
      else generateStart s inp
    else if inp.confirm = false then (GenRes.cancelled, s)
    else generateStart s inp
  else generateStart s inp

/-- An invocation of a synthesis backend by the generate worker.
`coqui instanceModel text speaker out` is
`self._coqui_instance.tts_to_file(text=text, speaker_wav=speaker,
file_path=out)` where `instanceModel` is the model name the cached instance
was constructed with; `sysTTS text out` is the pyttsx3
`save_to_file(text, out)` path. -/
inductive SynthCall where
  | coqui (instanceModel : String) (text : String) (speaker : Option String) (out : String)
  | sysTTS (text : String) (out : String)
  deriving DecidableEq

/-- Result of the generate worker: final state (the `finally` re-enables the
Generate button on every path), posted messages, backend calls performed,
`TTS(...)` constructor attempts, and whether the body completed. -/
structure WorkerOut where
  state : AppState
  posted : List String
  calls : List SynthCall
  constructed : List String
  ok : Bool
  deriving DecidableEq

/-- The Coqui synthesis step of `_generate_worker` (src/3.py lines 308-315)
run against the cached instance constructed for `instModel`: attempt
`tts_to_file` with `speaker_wav=self.voice_sample`; on success post the
generated-file message, on exception fall to the outer handler which posts
the synthesis-failed message; the `finally` re-enables the button. -/
def coquiSynth (env : Env) (s : AppState) (text : String) (instModel : String) : WorkerOut :=
  let call := SynthCall.coqui instModel text s.voice_sample s.output_file
  if env.coqui_tts_ok then
    { state := { s with generate_btn_disabled := false }
      posted := ["Generated (Coqui) -> " ++ s.output_file]
      calls := [call]
      constructed := []
      ok := true }
  else
    { state := { s with generate_btn_disabled := false }
      posted := ["Synthesis failed: tts error"]
      calls := [call]
      constructed := []
      ok := false }

/-- `_generate_worker` (src/3.py lines 293-334). With Coqui available: build
the instance only when `self._coqui_instance is None` (an existing instance
is reused whatever `self.tts_model_name` now is); a constructor failure
resets the instance to `None`, re-raises, and the outer handler posts the
failure. Without Coqui: raise if pyttsx3 is missing, else synthesize with
pyttsx3. The `finally` re-enables the Generate button on every path. -/
def generate_worker (env : Env) (s : AppState) (text : String) : WorkerOut :=
  if env.has_tts then
    match s.coqui_instance with
    | some m => coquiSynth env s text m
    | none =>
      if env.coqui_load_ok s.tts_model_name then
        let w := coquiSynth env { s with coqui_instance := some s.tts_model_name } text
          s.tts_model_name
        { w with constructed := [s.tts_model_name] }
      else
        { state := { s with coqui_instance := none, generate_btn_disabled := false }
          posted := ["Failed to load Coqui model: load error", "Synthesis failed: load error"]
          calls := []
          constructed := [s.tts_model_name]
          ok := false }
  else
    if env.has_pyttsx3 = false then
      { state := { s with generate_btn_disabled := false }
        posted := ["Synthesis failed: pyttsx3 not installed; cannot synthesize."]
        calls := []
        constructed := []
        ok := false }
    else if env.sys_tts_ok then
      { state := { s with generate_btn_disabled := false }
        posted := ["Generated (pyttsx3) -> " ++ s.output_file]
        calls := [SynthCall.sysTTS text s.output_file]
        constructed := []
        ok := true }
    else
      { state := { s with generate_btn_disabled := false }
        posted := ["Synthesis failed: engine error"]
        calls := [SynthCall.sysTTS text s.output_file]
        constructed := []
        ok := false }

/-- Messages that report a terminal outcome of a synthesize job. -/
def isGenTerminal (m : String) : Bool :=
  strStarts m "Generated" || strStarts m "Synthesis failed"

/-- Messages that report a terminal outcome of a record job. -/
def isRecTerminal (m : String) : Bool :=
  strStarts m "Saved voice sample" || strStarts m "Recording failed"

/-- Number of terminal synthesize-job messages in a posted list. -/
def countTerminalGen (ms : List String) : Nat := (ms.filter isGenTerminal).length

/-- Number of terminal record-job messages in a posted list. -/
def countTerminalRec (ms : List String) : Nat := (ms.filter isRecTerminal).length

/-- The sample rates offered by the sample-rate combo box (src/3.py
line 158). -/
def allowedRates : List Nat := [8000, 16000, 22050, 32000, 44100, 48000]

/-! ### Helper lemmas about the dict operations -/

theorem dictGet_append (d1 d2 : Dict) (k : String) :
    dictGet (d1 ++ d2) k =
      match dictGet d1 k with
      | some v => some v
      | none => dictGet d2 k := by
  induction d1 with
  | nil => simp [dictGet]
  | cons p rest ih =>
    by_cases h : p.1 = k <;> simp [dictGet, h, ih]

theorem dictGet_none_of_not_hasKey (d : Dict) (k : String) (h : hasKey d k = false) :
    dictGet d k = none := by
  induction d with
  | nil => simp [dictGet]
  | cons p rest ih =>
    simp [hasKey] at h
    simp [dictGet, h.1, ih h.2]

theorem dictGet_map_replace_of_hasKey (d : Dict) (k : String) (v : SVal)
    (h : hasKey d k = true) :
    dictGet (d.map (fun p => if p.1 = k then (k, v) else p)) k = some v := by
  induction d with
  | nil => simp [hasKey] at h
  | cons p rest ih =>
    by_cases hp : p.1 = k
    · simp [dictGet, hp]
    · simp [hasKey, hp] at h
      simp [dictGet, hp, ih h]

theorem dictGet_map_replace_ne (d : Dict) (k k2 : String) (v : SVal) (h : k2 ≠ k) :
    dictGet (d.map (fun p => if p.1 = k then (k, v) else p)) k2 = dictGet d k2 := by
  induction d with
  | nil => simp [dictGet]
  | cons p rest ih =>
    by_cases hp : p.1 = k
    · have h1 : ¬ (k = k2) := fun hc => h hc.symm
      have h2 : ¬ (p.1 = k2) := by rw [hp]; exact h1
      simp [dictGet, hp, h1, h2, ih]
    · have hid : (if p.1 = k then ((k, v) : String × SVal) else p) = p := if_neg hp
      simp [dictGet, hid, ih]

theorem dictGet_dictSet_self (d : Dict) (k : String) (v : SVal) :
    dictGet (dictSet d k v) k = some v := by
  unfold dictSet
  by_cases h : hasKey d k
  · simp [h, dictGet_map_replace_of_hasKey d k v h]
  · simp only [Bool.not_eq_true] at h
    simp [h, dictGet_append, dictGet_none_of_not_hasKey d k h, dictGet]

theorem dictGet_dictSet_ne (d : Dict) (k k2 : String) (v : SVal) (h : k2 ≠ k) :
    dictGet (dictSet d k v) k2 = dictGet d k2 := by
  unfold dictSet
  by_cases hk : hasKey d k
  · simp [hk, dictGet_map_replace_ne d k k2 v h]
  · simp only [hk, if_false, Bool.false_eq_true]
    rw [dictGet_append]
    have h2 : ¬ ((k, v).1 = k2) := fun hc => h hc.symm
    cases hd : dictGet d k2 <;> simp [dictGet, h2]

theorem hasKey_eq_isSome (d : Dict) (k : String) :
    hasKey d k = (dictGet d k).isSome := by
  induction d with
  | nil => simp [hasKey, dictGet]
  | cons p rest ih =>
    by_cases hp : p.1 = k <;> simp [hasKey, dictGet, hp, ih]

theorem lookupLast_none_of_not_hasKey (s : Dict) (k : String) (h : hasKey s k = false) :
    lookupLast s k = none := by
  induction s with
  | nil => simp [lookupLast]
  | cons p rest ih =>
    simp [hasKey] at h
    simp [lookupLast, h.1, ih h.2]

theorem lookupLast_isSome_of_hasKey (s : Dict) (k : String) (h : hasKey s k = true) :
    (lookupLast s k).isSome = true := by
  induction s with
  | nil => simp [hasKey] at h
  | cons q t ih =>
    by_cases hq : hasKey t k
    · cases ht : lookupLast t k with
      | none => have := ih hq; simp [ht] at this
      | some v => simp [lookupLast, ht]
    · simp only [Bool.not_eq_true] at hq
      have hqk : q.1 = k := by
        simp [hasKey, hq] at h
        exact h
      simp [lookupLast, lookupLast_none_of_not_hasKey t k hq, hqk]

theorem lookupLast_cons_of_hasKey (p : String × SVal) (rest : Dict) (k : String)
    (h : hasKey rest k = true) :
    lookupLast (p :: rest) k = lookupLast rest k := by
  have hsome := lookupLast_isSome_of_hasKey rest k h
  cases hl : lookupLast rest k with
  | none => simp [hl] at hsome
  | some v => simp [lookupLast, hl]

theorem dictGet_dictUpdate (d s : Dict) (k : String) :
    dictGet (dictUpdate d s) k =
      if hasKey s k then lookupLast s k else dictGet d k := by
  induction s generalizing d with
  | nil => simp [dictUpdate, hasKey]
  | cons p rest ih =>
    have step : dictUpdate d (p :: rest) = dictUpdate (dictSet d p.1 p.2) rest := rfl
    rw [step, ih]
    by_cases hr : hasKey rest k
    · simp [hasKey, hr, lookupLast_cons_of_hasKey p rest k hr]
    · simp only [Bool.not_eq_true] at hr
      by_cases hp : p.1 = k
      · subst hp
        simp [hasKey, hr, lookupLast, lookupLast_none_of_not_hasKey rest _ hr,
          dictGet_dictSet_self]
      · have hne : k ≠ p.1 := fun hc => hp hc.symm
        simp [hasKey, hr, hp, lookupLast, lookupLast_none_of_not_hasKey rest _ hr,
          dictGet_dictSet_ne d p.1 k p.2 hne]

theorem hasKey_dictUpdate (d s : Dict) (k : String) :
    hasKey (dictUpdate d s) k = (hasKey d k || hasKey s k) := by
  have hget := dictGet_dictUpdate d s k
  cases hs : hasKey s k with
  | false =>
    rw [hs, if_neg (by simp)] at hget
    rw [hasKey_eq_isSome, hget, ← hasKey_eq_isSome]
    simp
  | true =>
    rw [hs, if_pos rfl] at hget
    rw [hasKey_eq_isSome, hget, lookupLast_isSome_of_hasKey s k hs]
    simp

/-! ### Helper lemmas about the status queue -/

theorem foldl_post_status (q ms : List String) :
    List.foldl post_status q ms = q ++ ms := by
  induction ms generalizing q with
  | nil => simp
  | cons m rest ih => simp [post_status, ih]

theorem drainLoop_spec (q acc : List String) : drainLoop q acc = (acc ++ q, []) := by
  induction q generalizing acc with
  | nil => simp [drainLoop]
  | cons m rest ih => simp [drainLoop, ih]

/-! ### Concrete environments and states used by counterexamples and witnesses -/

/-- Environment where both engines are importable and every external effect
succeeds, but no path exists on disk. -/
def c2Env : Env :=
  { has_tts := true
    has_pyttsx3 := true
    fileExists := fun _ => false
    coqui_load_ok := fun _ => true
    coqui_tts_ok := true
    sys_tts_ok := true
    device_ok := true }

/-- Session state remembering a voice sample path that no longer exists. -/
def c2State : AppState := { baseState with voice_sample := some "old.wav" }

/-- A Generate intent: non-empty text, blank model entry, user confirms the
"Continue with system TTS?" dialog. -/
def c2Inp : GenInput := { text_box := "Hello world", model_entry := "", confirm := true }

/-- Environment where everything is present and succeeds, and every path
exists. -/
def wEnvAllTrue : Env :=
  { has_tts := true
    has_pyttsx3 := true
    fileExists := fun _ => true
    coqui_load_ok := fun _ => true
    coqui_tts_ok := true
    sys_tts_ok := true
    device_ok := true }

/-- Environment where no engine is importable and every external effect
fails. -/
def cFailEnv : Env :=
  { has_tts := false
    has_pyttsx3 := false
    fileExists := fun _ => false
    coqui_load_ok := fun _ => false
    coqui_tts_ok := false
    sys_tts_ok := false
    device_ok := false }

/-- Environment with only the device working (for the record witness). -/
def wRecEnv : Env := { cFailEnv with device_ok := true }

/-- State with a cached engine handle built for `model-A` while the session
model identifier has since been changed to `model-B`. -/
def c3State : AppState :=
  { baseState with coqui_instance := some "model-A", tts_model_name := "model-B" }

/-- State with an existing voice sample configured. -/
def wGenState : AppState := { baseState with voice_sample := some "sample.wav" }

/-- Generate input with blank (whitespace-only) model entry. -/
def wGenInp : GenInput := { text_box := "hi", model_entry := "   ", confirm := true }

/-- The state `_on_generate` hands the worker for `wGenState`/`wGenInp`: the
blank entry retains the model name, so only the button flag changes (the
settings write re-stores the value already present). -/
def c10ResState : AppState := { wGenState with generate_btn_disabled := true }

/-! ### Claims -/

/-- Claim C1, counterexample. The claim says a mutating Job submitted while
another mutating Job is running is rejected with `Busy` by the Runner
itself.  In the code `_on_record` (src/3.py lines 226-229) starts a worker
thread unconditionally: with a mutating job already running
(`runningMutating = true`) the submission is still accepted, never
`rejectedBusy`. -/
theorem C1_counterexample :
    on_record baseState true = SubmitResult.accepted
    ∧ on_record baseState true ≠ SubmitResult.rejectedBusy := by
  decide

/-- Claim C1, amended. The Runner performs no admission control at all: a
Record submission is always accepted, and a Generate intent with valid
input starts a worker, in both cases regardless of whether another mutating
job is running (and hence also after the first job reaches a terminal
state); the only guard in the program is view-level (the Generate button is
disabled while a synthesize worker runs). -/
theorem C1_amended_no_runner_admission (s : AppState) (running : Bool) (env : Env)
    (inp : GenInput)
    (htext : strStrip inp.text_box ≠ "") (hsample : sampleUsable env s = true) :
    on_record s running = SubmitResult.accepted
    ∧ (on_generate running env s inp).1 = GenRes.started (strStrip inp.text_box) := by
  constructor
  · rfl
  · simp [on_generate, htext, hsample, generateStart]

/-- Claim C1, amended witness: with a mutating job running, both a Record
and a valid Generate submission are accepted. -/
theorem C1_amended_witness :
    strStrip (GenInput.mk "go" "" true).text_box ≠ ""
    ∧ sampleUsable wEnvAllTrue wGenState = true
    ∧ on_record wGenState true = SubmitResult.accepted
    ∧ (on_generate true wEnvAllTrue wGenState (GenInput.mk "go" "" true)).1
        = GenRes.started (strStrip (GenInput.mk "go" "" true).text_box) :=
  ⟨by decide, by decide,
   C1_amended_no_runner_admission wGenState true wEnvAllTrue (GenInput.mk "go" "" true)
     (by decide) (by decide)⟩

/-- Claim C2 (code bug). With cloning available (`HAS_TTS`), a stored voice
sample path that no longer exists on disk, and non-empty text: declining
the confirmation dialog aborts (the confirmation gate holds), but after the
user confirms "Continue with system TTS?" the worker does NOT run degraded
on the fallback voice — it calls the Coqui cloning engine with
`speaker_wav` set to the missing sample path (src/3.py line 311), i.e. it
silently attempts cloning, and never touches pyttsx3.  This contradicts
both the claim and the program's own dialog text. -/
theorem C2_code_bug_cloning_attempted :
    c2Env.fileExists "old.wav" = false
    ∧ (on_generate false c2Env c2State { c2Inp with confirm := false }).1 = GenRes.cancelled
    ∧ (on_generate false c2Env c2State c2Inp).1 = GenRes.started "Hello world"
    ∧ (generate_worker c2Env (on_generate false c2Env c2State c2Inp).2 "Hello world").calls
        = [SynthCall.coqui "tts_models/en/vctk/vits" "Hello world" (some "old.wav")
            "vc_output.wav"] := by
  decide

/-- Claim C3, counterexample. The claim says a Generate with a changed model
identifier does not reuse the handle built for a different identifier. In
the code the worker checks only `self._coqui_instance is None` (src/3.py
line 298): with a handle cached for `model-A` and the session identifier
changed to `model-B`, the worker constructs nothing and synthesizes on the
`model-A` instance. -/
theorem C3_counterexample :
    (generate_worker wEnvAllTrue c3State "hi").constructed = []
    ∧ (generate_worker wEnvAllTrue c3State "hi").calls
        = [SynthCall.coqui "model-A" "hi" none "vc_output.wav"]
    ∧ c3State.tts_model_name = "model-B"
    ∧ ("model-A" : String) ≠ "model-B" := by
  decide

/-- Claim C3, amended. The handle is constructed at most once per process
lifetime overall, NOT per model identifier: once a handle is cached, every
Generate reuses it and never resets it, whatever the current identifier;
while uninitialized, an engine-load failure leaves it uninitialized (so a
retry starts fresh) and the job fails, and a successful load caches the
handle under the identifier current at load time. -/
theorem C3_amended_handle_cache (env : Env) (s : AppState) (text : String) (m : String) :
    (s.coqui_instance = some m →
      (generate_worker env s text).constructed = []
      ∧ (generate_worker env s text).state.coqui_instance = some m)
    ∧ (s.coqui_instance = none → env.has_tts = true →
        env.coqui_load_ok s.tts_model_name = false →
        (generate_worker env s text).state.coqui_instance = none
        ∧ (generate_worker env s text).ok = false)
    ∧ (s.coqui_instance = none → env.has_tts = true →
        env.coqui_load_ok s.tts_model_name = true →
        (generate_worker env s text).constructed = [s.tts_model_name]
        ∧ (generate_worker env s text).state.coqui_instance = some s.tts_model_name) := by
  refine ⟨?_, ?_, ?_⟩
  · intro h
    cases h1 : env.has_tts <;> cases h4 : env.coqui_tts_ok <;>
      cases h5 : env.has_pyttsx3 <;> cases h6 : env.sys_tts_ok <;>
      simp [generate_worker, coquiSynth, h, h1, h4, h5, h6]
  · intro h hts hload
    simp [generate_worker, h, hts, hload]
  · intro h hts hload
    cases h4 : env.coqui_tts_ok <;> simp [generate_worker, coquiSynth, h, hts, hload, h4]

/-- Claim C3, amended witness: a cached `model-A` handle survives a Generate
issued under identifier `model-B`, with no new construction. -/
theorem C3_amended_witness :
    c3State.coqui_instance = some "model-A"
    ∧ (generate_worker wEnvAllTrue c3State "yo").constructed = []
    ∧ (generate_worker wEnvAllTrue c3State "yo").state.coqui_instance = some "model-A" :=
  ⟨rfl, (C3_amended_handle_cache wEnvAllTrue c3State "yo" "model-A").1 rfl⟩

/-- Claim C4 (confirmed). The generate worker's `finally` re-enables the
Generate button — the only admission guard that exists — on every exit
path; a worker body that raises still posts exactly one terminal status
message, and a mutating submission made afterwards is accepted, not Busy.
The record worker's `except` likewise posts exactly one terminal message
when the body raises. -/
theorem C4_cleanup_on_failure (env : Env) (s : AppState) (text : String) :
    (generate_worker env s text).state.generate_btn_disabled = false
    ∧ ((generate_worker env s text).ok = false →
        countTerminalGen (generate_worker env s text).posted = 1
        ∧ on_record (generate_worker env s text).state true = SubmitResult.accepted)
    ∧ ((record_worker env s).ok = false →
        countTerminalRec (record_worker env s).posted = 1) := by
  cases h1 : env.has_tts <;> cases h2 : s.coqui_instance <;>
    cases h3 : env.coqui_load_ok s.tts_model_name <;>
    cases h4 : env.coqui_tts_ok <;> cases h5 : env.has_pyttsx3 <;>
    cases h6 : env.sys_tts_ok <;> cases h7 : env.device_ok <;>
    simp [generate_worker, record_worker, coquiSynth, on_record, h1, h2, h3, h4, h5, h6, h7] <;>
    decide

/-- Claim C4, witness: with no engine importable and a dead device, both
workers fail; the button is released, each failure posts exactly one
terminal message, and a subsequent mutating submission is accepted. -/
theorem C4_witness :
    (generate_worker cFailEnv baseState "hi").ok = false
    ∧ countTerminalGen (generate_worker cFailEnv baseState "hi").posted = 1
    ∧ on_record (generate_worker cFailEnv baseState "hi").state true = SubmitResult.accepted
    ∧ (record_worker cFailEnv baseState).ok = false
    ∧ countTerminalRec (record_worker cFailEnv baseState).posted = 1 :=
  ⟨by decide,
   ((C4_cleanup_on_failure cFailEnv baseState "hi").2.1 (by decide)).1,
   ((C4_cleanup_on_failure cFailEnv baseState "hi").2.1 (by decide)).2,
   by decide,
   (C4_cleanup_on_failure cFailEnv baseState "hi").2.2 (by decide)⟩

/-- Claim C5, counterexample. The claim says Upload accepts only files that
have a `.wav` extension AND exist on disk. `_on_upload` (src/3.py lines
253-263) checks only the extension: in an environment where no path exists,
uploading `ghost.wav` is still accepted and the state is changed. -/
theorem C5_counterexample :
    cFailEnv.fileExists "ghost.wav" = false
    ∧ (on_upload cFailEnv baseState "ghost.wav").1 = UploadRes.accepted
    ∧ (on_upload cFailEnv baseState "ghost.wav").2.voice_sample = some "ghost.wav" := by
  decide

/-- Claim C5, amended. Upload accepts the chosen file iff a file was
selected and its name ends with `.wav` case-insensitively — existence on
disk is never checked (the file dialog is trusted for that). On acceptance
the Voice Sample Reference and the settings are updated; any non-accepted
outcome (no selection, or the InvalidFile error for a non-`.wav` name)
leaves the state completely unchanged. -/
theorem C5_amended_upload (env : Env) (s : AppState) (p : String) :
    ((on_upload env s p).1 = UploadRes.accepted ↔ p ≠ "" ∧ strEnds (strLower p) ".wav" = true)
    ∧ ((on_upload env s p).1 ≠ UploadRes.accepted → (on_upload env s p).2 = s)
    ∧ ((on_upload env s p).1 = UploadRes.accepted →
        (on_upload env s p).2.voice_sample = some p
        ∧ dictGet (on_upload env s p).2.settings "last_voice_sample"
            = some (SVal.str p)) := by
  by_cases h0 : p = ""
  · subst h0
    simp [on_upload]
  · by_cases hw : strEnds (strLower p) ".wav" = true
    · simp [on_upload, h0, hw, dictGet_dictSet_self]
    · simp only [Bool.not_eq_true] at hw
      simp [on_upload, h0, hw]

/-- Claim C5, amended witness: uploading `v.wav` is accepted (even though no
file exists in this environment) and updates the sample reference and the
settings. -/
theorem C5_amended_witness :
    ((on_upload cFailEnv baseState "v.wav").1 = UploadRes.accepted
      ↔ ("v.wav" : String) ≠ "" ∧ strEnds (strLower "v.wav") ".wav" = true)
    ∧ (on_upload cFailEnv baseState "v.wav").1 = UploadRes.accepted
    ∧ (on_upload cFailEnv baseState "v.wav").2.voice_sample = some "v.wav"
    ∧ dictGet (on_upload cFailEnv baseState "v.wav").2.settings "last_voice_sample"
        = some (SVal.str "v.wav") :=
  ⟨(C5_amended_upload cFailEnv baseState "v.wav").1, by decide,
   (C5_amended_upload cFailEnv baseState "v.wav").2.2 (by decide)⟩

/-- Claim C6, counterexample. The claim says unknown fields are ignored on
read and every write persists exactly the four schema fields.
`load_settings` merges the parsed file over the defaults with
`DEFAULT_SETTINGS.update(s)` (src/3.py line 68), so an unknown field
`theme` is retained, and `save_settings` dumps the whole dict (line 75),
persisting five fields, not four. -/
theorem C6_counterexample :
    dictGet (save_settings (load_settings DEFAULT_SETTINGS
        (FileState.parsed [("theme", SVal.str "dark")]))) "theme" = some (SVal.str "dark")
    ∧ (save_settings (load_settings DEFAULT_SETTINGS
        (FileState.parsed [("theme", SVal.str "dark")]))).length ≠ 4 := by
  decide

/-- Claim C6, amended. Unknown fields read from the settings file are NOT
ignored: they are merged into the in-memory dict and persisted by every
subsequent write alongside the schema fields; the four schema fields
themselves are always present on write (merging never removes a key). -/
theorem C6_amended_persist (fs : FileState) (k : String) :
    (hasKey DEFAULT_SETTINGS k = true →
      hasKey (save_settings (load_settings DEFAULT_SETTINGS fs)) k = true)
    ∧ (∀ s, fs = FileState.parsed s → hasKey s k = true →
        hasKey (save_settings (load_settings DEFAULT_SETTINGS fs)) k = true) := by
  constructor
  · intro h
    cases fs <;> simp [save_settings, load_settings, h, hasKey_dictUpdate]
  · intro s hfs h
    subst hfs
    simp [save_settings, load_settings, hasKey_dictUpdate, h]

/-- Claim C6, amended witness: after reading a file carrying the unknown
field `theme`, the written document still has the schema field
`sample_rate` and also carries `theme`. -/
theorem C6_amended_witness :
    hasKey DEFAULT_SETTINGS "sample_rate" = true
    ∧ hasKey (save_settings (load_settings DEFAULT_SETTINGS
        (FileState.parsed [("theme", SVal.str "dark")]))) "sample_rate" = true
    ∧ hasKey [("theme", SVal.str "dark")] "theme" = true
    ∧ hasKey (save_settings (load_settings DEFAULT_SETTINGS
        (FileState.parsed [("theme", SVal.str "dark")]))) "theme" = true :=
  ⟨by decide,
   (C6_amended_persist (FileState.parsed [("theme", SVal.str "dark")]) "sample_rate").1
     (by decide),
   by decide,
   (C6_amended_persist (FileState.parsed [("theme", SVal.str "dark")]) "theme").2
     [("theme", SVal.str "dark")] rfl (by decide)⟩

/-- Claim C7 (confirmed). `load_settings` is a total function — every
exception is swallowed by `except Exception: pass`, so it never raises to
the caller.  On a missing or unreadable file it returns exactly the
defaults; on a parsed file it returns the defaults merged with the file's
data: every schema key stays present, a key present in the file ends up
with the file's (last) value for it, and a key absent from the file keeps
its default. -/
theorem C7_load_never_raises :
    load_settings DEFAULT_SETTINGS FileState.missing = DEFAULT_SETTINGS
    ∧ load_settings DEFAULT_SETTINGS FileState.corrupt = DEFAULT_SETTINGS
    ∧ ∀ (s : Dict) (k : String),
        (hasKey DEFAULT_SETTINGS k = true →
          hasKey (load_settings DEFAULT_SETTINGS (FileState.parsed s)) k = true)
        ∧ (hasKey s k = true →
          dictGet (load_settings DEFAULT_SETTINGS (FileState.parsed s)) k = lookupLast s k)
        ∧ (hasKey s k = false →
          dictGet (load_settings DEFAULT_SETTINGS (FileState.parsed s)) k
            = dictGet DEFAULT_SETTINGS k) := by
  refine ⟨rfl, rfl, fun s k => ⟨?_, ?_, ?_⟩⟩
  · intro h
    simp [load_settings, hasKey_dictUpdate, h]
  · intro h
    simp [load_settings, dictGet_dictUpdate, h]
  · intro h
    simp [load_settings, dictGet_dictUpdate, h]

/-- Claim C7, witness: a file overriding `sample_rate` merges that value in
while a key it does not mention keeps its default. -/
theorem C7_witness :
    hasKey [("sample_rate", SVal.int 22050)] "sample_rate" = true
    ∧ dictGet (load_settings DEFAULT_SETTINGS
        (FileState.parsed [("sample_rate", SVal.int 22050)])) "sample_rate"
        = lookupLast [("sample_rate", SVal.int 22050)] "sample_rate"
    ∧ hasKey [("sample_rate", SVal.int 22050)] "record_seconds" = false
    ∧ dictGet (load_settings DEFAULT_SETTINGS
        (FileState.parsed [("sample_rate", SVal.int 22050)])) "record_seconds"
        = dictGet DEFAULT_SETTINGS "record_seconds" :=
  ⟨by decide,
   (C7_load_never_raises.2.2 [("sample_rate", SVal.int 22050)] "sample_rate").2.1 (by decide),
   by decide,
   (C7_load_never_raises.2.2 [("sample_rate", SVal.int 22050)] "record_seconds").2.2
     (by decide)⟩

/-- Claim C8 (confirmed). `post_status` is a total append on the unbounded
queue (it cannot block or fail), and one polling pass of the consumer loop
pulls every currently available message: after any sequence of posts by a
producer, the drained list is exactly the queue contents followed by the
posted messages in post order (FIFO), leaving the queue empty. -/
theorem C8_fifo_drain (q ms : List String) :
    drain_and_consume (List.foldl post_status q ms) = (q ++ ms, []) := by
  rw [foldl_post_status]
  unfold drain_and_consume
  rw [drainLoop_spec]
  simp

/-- Claim C9 (confirmed). For valid bounds and an available device, the
record worker completes and writes the fixed-name, single-channel WAV with
exactly `record_seconds * sample_rate` frames at the requested rate
(duration matches exactly, hence within one sample-frame), and updates the
Voice Sample Reference and the settings. -/
theorem C9_record_output (env : Env) (s : AppState)
    (h2 : 2 ≤ s.record_seconds) (h60 : s.record_seconds ≤ 60)
    (hsr : s.sample_rate ∈ allowedRates) (hdev : env.device_ok = true) :
    (record_worker env s).ok = true
    ∧ (record_worker env s).wav =
        some { path := myvoice_path, channels := 1, sampleRate := s.sample_rate,
               frames := s.record_seconds * s.sample_rate }
    ∧ (record_worker env s).state.voice_sample = some myvoice_path
    ∧ dictGet (record_worker env s).state.settings "last_voice_sample"
        = some (SVal.str myvoice_path) := by
  simp [record_worker, hdev, dictGet_dictSet_self]

/-- Claim C9, witness: recording 10 seconds at 44100 Hz produces the
441000-frame mono WAV at the fixed path and updates sample state and
settings. -/
theorem C9_witness :
    2 ≤ baseState.record_seconds ∧ baseState.record_seconds ≤ 60
    ∧ baseState.sample_rate ∈ allowedRates ∧ wRecEnv.device_ok = true
    ∧ ((record_worker wRecEnv baseState).ok = true
      ∧ (record_worker wRecEnv baseState).wav =
          some { path := myvoice_path, channels := 1, sampleRate := baseState.sample_rate,
                 frames := baseState.record_seconds * baseState.sample_rate }
      ∧ (record_worker wRecEnv baseState).state.voice_sample = some myvoice_path
      ∧ dictGet (record_worker wRecEnv baseState).state.settings "last_voice_sample"
          = some (SVal.str myvoice_path)) :=
  ⟨by decide, by decide, by decide, rfl,
   C9_record_output wRecEnv baseState (by decide) (by decide) (by decide) rfl⟩

/-- Claim C10 (confirmed). Whenever `_on_generate` starts a worker: a blank
(empty or whitespace-only) model entry leaves the session model identifier
unchanged; the settings always receive exactly the session identifier; and
if the previous identifier was non-empty, the stored identifier is
non-empty too — so a Generate never introduces an empty model identifier
into session state or the settings. -/
theorem C10_model_retention (running : Bool) (env : Env) (s : AppState) (inp : GenInput)
    (s1 : AppState) (t : String)
    (h : on_generate running env s inp = (GenRes.started t, s1)) :
    (strStrip inp.model_entry = "" → s1.tts_model_name = s.tts_model_name)
    ∧ dictGet s1.settings "tts_model_name" = some (SVal.str s1.tts_model_name)
    ∧ (s.tts_model_name ≠ "" → s1.tts_model_name ≠ "") := by
  have hstart : generateStart s inp = (GenRes.started t, s1) := by
    simp only [on_generate] at h
    by_cases ht : strStrip inp.text_box = "" <;>
      by_cases hs : sampleUsable env s = false <;>
      by_cases htts : env.has_tts = false <;>
      by_cases hpy : env.has_pyttsx3 = false <;>
      by_cases hc : inp.confirm = false <;>
      simp_all
  have hs1 : s1 =
      { s with
        tts_model_name := newModelName inp.model_entry s.tts_model_name
        settings := dictSet s.settings "tts_model_name"
          (SVal.str (newModelName inp.model_entry s.tts_model_name))
        generate_btn_disabled := true } := by
    have h2 := congrArg Prod.snd hstart
    simp only [generateStart] at h2
    exact h2.symm
  subst hs1
  refine ⟨?_, ?_, ?_⟩
  · intro hblank
    simp [newModelName, hblank]
  · simp [dictGet_dictSet_self]
  · intro hne
    simp only [newModelName]
    by_cases hb : strStrip inp.model_entry = ""
    · simpa [hb] using hne
    · simp [hb]

/-- Claim C10, witness: a whitespace-only model entry retains and re-persists
the previous (non-empty) identifier. -/
theorem C10_witness :
    on_generate false wEnvAllTrue wGenState wGenInp = (GenRes.started "hi", c10ResState)
    ∧ ((strStrip wGenInp.model_entry = ""
        → c10ResState.tts_model_name = wGenState.tts_model_name)
      ∧ dictGet c10ResState.settings "tts_model_name"
          = some (SVal.str c10ResState.tts_model_name)
      ∧ (wGenState.tts_model_name ≠ "" → c10ResState.tts_model_name ≠ "")) :=
  ⟨by decide,
   C10_model_retention false wEnvAllTrue wGenState wGenInp c10ResState "hi" (by decide)⟩
